import Mathlib

/-!
# Verification of the GTM opportunity agent core

A shallow embedding, in Lean 4, of the orchestration-and-filtering core of
the sales-AI platform: the account store (`utils/data_loader.py`), the
account analyzer (`activities/rag_analyzer.py`), the notifier
(`activities/slack_poster.py`), and the opportunity workflow plus its poll
loop caller (`workflows/opportunity_workflow.py`, `main.py`).

Conventions of the embedding:
* A JSON account record becomes the structure `Account`; a field that the
  Python code reads with `dict.get` is an `Option`, and `x.get(k, d)`
  becomes `Option.getD`.
* Python exceptions become `Except String`; a `try/except` body is a value
  of `Except String α` matched by the handler.
* The file system and the external services (vector index, Arcade tool
  execution, the Temporal activity transport) are explicit parameters:
  a directory listing with per-file read outcomes, a query function
  returning `Except`, an execute function returning `Except`, and
  attempt-indexed activity functions for the durable engine's retries.
* Python string truthiness/`lower()`/`title()` are modelled charwise on
  `String.data` (the inputs involved are ASCII).
-/

namespace GTM

/-! ## Settings (`config/settings.py`) -/

/-- The settings fields the embedded core reads, with their declared
defaults (`Settings` in `config/settings.py`). -/
structure Settings where
  high_intent_threshold : Int
  slack_channel : String
deriving DecidableEq, Repr

/-- Default values from `config/settings.py`. -/
def settings : Settings :=
  { high_intent_threshold := 75
    slack_channel := "#gtm-opportunities" }

/-! ## String helpers (Python `in`, `lower()`, `title()`, `replace`) -/

/-- Auxiliary scan: does `needle` occur as a contiguous run in the
haystack?  (Python's `sub in s`.) -/
def substrAux (needle : List Char) : List Char → Bool
  | [] => needle.isEmpty
  | c :: cs => needle.isPrefixOf (c :: cs) || substrAux needle cs

/-- Python `needle in s` on strings. -/
def strContains (s needle : String) : Bool :=
  substrAux needle.data s.data

/-- Python `s.lower()` (ASCII range, which covers every literal the code
compares against). -/
def lowerStr (s : String) : String :=
  ⟨s.data.map Char.toLower⟩

/-- Charwise `s.replace('_', ' ')`. -/
def replaceUnderscores (s : String) : String :=
  ⟨s.data.map fun c => if c = '_' then ' ' else c⟩

/-- Scan for Python `str.title()`: the first character of each alphabetic
run is uppercased, the rest lowercased. -/
def titleAux : List Char → Bool → List Char
  | [], _ => []
  | c :: cs, prevAlpha =>
    (if c.isAlpha then (if prevAlpha then c.toLower else c.toUpper) else c)
      :: titleAux cs c.isAlpha

/-- Python `s.title()`. -/
def titleStr (s : String) : String :=
  ⟨titleAux s.data false⟩

/-! ## Data model (§3 of the spec; the JSON records of the store) -/

/-- One intent signal record.  `s.get('type', '')` and
`s.get('user_title', 'Unknown Role')` read these fields. -/
structure Signal where
  type : Option String
  user_title : Option String
deriving DecidableEq, Repr

/-- One account record of the persisted JSON collection.  Every field the
code reads via `dict.get` is optional; `otherFields` stands for any
further key/value pairs of the JSON object that the core never reads, so
that frame conditions can be stated about them. -/
structure Account where
  account_id : Option String
  company_name : Option String
  industry : Option String
  employee_count : Option Int
  revenue : Option String
  intent_score : Option Int
  intent_signals : Option (List Signal)
  processed : Option Bool
  last_activity : Option String
  otherFields : List (String × String)
deriving DecidableEq, Repr

/-- The account record with every optional field absent (`{}`). -/
def emptyAccount : Account :=
  { account_id := none, company_name := none, industry := none
    employee_count := none, revenue := none, intent_score := none
    intent_signals := none, processed := none, last_activity := none
    otherFields := [] }

/-! ## Account store (`utils/data_loader.py`) -/

/-- `threshold = threshold or settings.high_intent_threshold`
(`DataLoader.get_high_intent_accounts`, line 43).  Python's `or` falls
through on every falsy value: both `None` (the omitted default) and `0`
select the configured threshold. -/
def effectiveThreshold (threshold : Option Int) : Int :=
  match threshold with
  | none => settings.high_intent_threshold
  | some t => if t = 0 then settings.high_intent_threshold else t

/-- `DataLoader.get_high_intent_accounts`: filter the loaded collection by
`account.get('intent_score', 0) >= threshold and not
account.get('processed', False)`, preserving list order.  The loaded
collection is a parameter (the store reloads it from disk on every
call). -/
def get_high_intent_accounts (accounts : List Account)
    (threshold : Option Int) : List Account :=
  let t := effectiveThreshold threshold
  accounts.filter fun account =>
    account.intent_score.getD 0 ≥ t && !(account.processed.getD false)

/-- The `for ... break / else` loop of `DataLoader.mark_account_processed`:
find the first record with `account.get('account_id') == account_id`, set
its `processed` key to `True`, and keep the rest; `none` when no record
matches (the `else:` branch). -/
def markLoop (id : Option String) : List Account → Option (List Account)
  | [] => none
  | a :: rest =>
    if a.account_id = id then some ({ a with processed := some true } :: rest)
    else (markLoop id rest).map (a :: ·)

/-- `DataLoader.mark_account_processed`: returns the Python result
(`True`/`False`) together with the persisted collection after the call —
the rewritten list when a record matched, the untouched input when the
`for/else` fell through and the function returned `False` before any
write. -/
def mark_account_processed (accounts : List Account)
    (id : Option String) : Bool × List Account :=
  match markLoop id accounts with
  | some accounts2 => (true, accounts2)
  | none => (false, accounts)

/-- The `for file_path in ...glob("*.txt")` loop of
`DataLoader.load_knowledge_base_files`.  Each directory entry carries its
read outcome; the surrounding `try` is OUTSIDE the loop, so the first
failing read ends the iteration and the entries accumulated so far are
returned. -/
def loadLoop : List (String × Except String String) → List (String × String)
  | [] => []
  | (name, Except.ok content) :: rest => (name, content) :: loadLoop rest
  | (_, Except.error _) :: _ => []

/-- `DataLoader.load_knowledge_base_files`: `none` models an absent
directory (`knowledge_base_path.exists()` false), giving the empty
mapping; otherwise the glob listing is walked by `loadLoop`. -/
def load_knowledge_base_files
    (dir : Option (List (String × Except String String))) :
    List (String × String) :=
  match dir with
  | none => []
  | some files => loadLoop files

/-! ## Account analyzer (`activities/rag_analyzer.py`) -/

/-- Python `f"{x}"` on a value read with a default-less `dict.get`:
an absent key renders as `None`. -/
def pyOptStr (x : Option String) : String :=
  match x with
  | none => "None"
  | some s => s

/-- Same for integer-valued fields. -/
def pyOptInt (x : Option Int) : String :=
  match x with
  | none => "None"
  | some n => toString n

/-- The sales-strategy dictionary (`strategy_type`, `recommendations`,
`confidence`).  `recommendations` is optional because
`_generate_fallback_analysis` builds the dictionary without that key. -/
structure SalesStrategy where
  strategy_type : String
  recommendations : Option String
  confidence : Rat
deriving DecidableEq, Repr

/-- The analyzer's external RAG capability: `query_engine` is `none` when
index construction failed or no knowledge base was found, otherwise a
query call that can itself fail. -/
structure RAGEnv where
  queryEngine : Option (String → Except String String)

/-- `RAGAnalyzer._build_context`. -/
def build_context (account : Account) : String :=
  let base :=
    ["Company: " ++ pyOptStr account.company_name,
     "Industry: " ++ pyOptStr account.industry,
     "Employee Count: " ++ pyOptInt account.employee_count,
     "Revenue: " ++ pyOptStr account.revenue,
     "Intent Score: " ++ pyOptInt account.intent_score ++ "/100"]
  let intent_signals := account.intent_signals.getD []
  let parts :=
    if intent_signals.isEmpty then base
    else
      base ++ ["\nRecent Activities:"] ++
        intent_signals.map fun signal =>
          "- " ++ titleStr (replaceUnderscores (signal.type.getD "")) ++
            " by " ++ (signal.user_title.getD "Unknown Role")
  String.intercalate "\n" parts

/-- The query text built inside `RAGAnalyzer._get_sales_strategy`. -/
def buildQuery (context : String) : String :=
  "\n            Based on this customer profile:\n            " ++ context ++
    "\n            \n            What sales strategy should we use? Include:\n            1. Best playbook to follow\n            2. Key value propositions to emphasize\n            3. Recommended next steps\n            4. Potential objections to prepare for\n            "

/-- `RAGAnalyzer._determine_strategy_type`: first-match-wins keyword
chain over the lowercased industry and context. -/
def determine_strategy_type (industry context : String) : String :=
  let industry_lower := lowerStr industry
  let context_lower := lowerStr context
  if strContains industry_lower "financial" || strContains context_lower "security" then
    "enterprise_security"
  else if strContains industry_lower "saas" || strContains context_lower "startup" then
    "saas_growth"
  else if strContains context_lower "enterprise" || strContains industry_lower "manufacturing" then
    "enterprise_digital_transformation"
  else
    "general_enterprise"

/-- `RAGAnalyzer._get_fallback_strategy`. -/
def get_fallback_strategy (industry : String) : SalesStrategy :=
  { strategy_type := "general_enterprise"
    recommendations :=
      some s!"Follow standard enterprise approach for {industry} industry"
    confidence := mkRat 1 2 }

/-- `RAGAnalyzer._get_sales_strategy`: fall back when no query engine is
available, query otherwise, and catch a query failure into the same
fallback. -/
def get_sales_strategy (env : RAGEnv) (context industry : String) :
    SalesStrategy :=
  match env.queryEngine with
  | none => get_fallback_strategy industry
  | some query =>
    match query (buildQuery context) with
    | Except.ok response =>
      { strategy_type := determine_strategy_type industry context
        recommendations := some response
        confidence := mkRat 85 100 }
    | Except.error _ => get_fallback_strategy industry

/-- One step of the insertion-ordered counting dictionary of
`_summarize_intent_signals`. -/
def bumpCount (k : String) : List (String × Nat) → List (String × Nat)
  | [] => [(k, 1)]
  | (k2, n) :: rest =>
    if k2 = k then (k2, n + 1) :: rest else (k2, n) :: bumpCount k rest

/-- `RAGAnalyzer._summarize_intent_signals`. -/
def summarize_intent_signals (signals : List Signal) : String :=
  if signals.isEmpty then "No recent activity"
  else
    let counts := signals.foldl
      (fun acc signal =>
        bumpCount (titleStr (replaceUnderscores (signal.type.getD "unknown"))) acc)
      []
    String.intercalate ", "
      (counts.map fun p => if p.2 > 1 then s!"{p.2}x {p.1}" else p.1)

/-- `RAGAnalyzer._get_intent_label`.  The score reaches this helper from
`account_data.get('intent_score')` WITHOUT a default, so an absent score
is `None` and the first `>=` comparison raises `TypeError` —
modelled as the `Except.error` case. -/
def get_intent_label (score : Option Int) : Except String String :=
  match score with
  | none =>
    Except.error "TypeError: not supported between instances of NoneType and int"
  | some s =>
    if s ≥ 90 then Except.ok "🔥 VERY HIGH"
    else if s ≥ 80 then Except.ok "🚨 HIGH"
    else if s ≥ 70 then Except.ok "📈 MEDIUM-HIGH"
    else if s ≥ 60 then Except.ok "📊 MEDIUM"
    else Except.ok "📋 LOW"

/-- `RAGAnalyzer._get_primary_focus`: fixed strategy→focus table with
default. -/
def get_primary_focus (strategy : SalesStrategy) : String :=
  if strategy.strategy_type = "enterprise_security" then
    "Compliance & Security Operations"
  else if strategy.strategy_type = "saas_growth" then
    "Scaling & Engineering Efficiency"
  else if strategy.strategy_type = "enterprise_digital_transformation" then
    "Digital Transformation & ROI"
  else if strategy.strategy_type = "general_enterprise" then
    "Operational Excellence"
  else
    "Custom Enterprise Solution"

/-- `RAGAnalyzer._format_next_actions`: three fixed actions plus one
strategy-specific action. -/
def format_next_actions (strategy : SalesStrategy) : String :=
  let actions :=
    ["1. 📞 Schedule discovery call within 24 hours",
     "2. 📧 Send relevant case study and ROI calculator",
     "3. 🎯 Prepare industry-specific demo scenario"]
  let actions :=
    if strategy.strategy_type = "enterprise_security" then
      actions ++ ["4. 🔒 Include compliance gap assessment offer"]
    else if strategy.strategy_type = "saas_growth" then
      actions ++ ["4. ⚡ Offer 14-day free trial setup"]
    else if strategy.strategy_type = "enterprise_digital_transformation" then
      actions ++ ["4. 📊 Schedule executive briefing session"]
    else actions
  String.intercalate "\n" actions

/-- `RAGAnalyzer._calculate_urgency`: pure function of the signal list. -/
def calculate_urgency (intent_signals : List Signal) : String :=
  if intent_signals.isEmpty then "LOW"
  else
    let recent_signals :=
      (intent_signals.filter fun s => strContains (s.type.getD "") "pricing").length
    let demo_requests :=
      (intent_signals.filter fun s => strContains (s.type.getD "") "demo").length
    if demo_requests > 0 || recent_signals ≥ 2 then
      "🔴 URGENT (Contact within 24hrs)"
    else if recent_signals > 0 then
      "🟡 HIGH (Contact within 48hrs)"
    else
      "🟢 MEDIUM (Contact within 1 week)"

/-- `RAGAnalyzer._get_recommended_actions` (fixed list). -/
def get_recommended_actions : List String :=
  ["Schedule discovery call",
   "Send relevant case studies",
   "Prepare demo environment",
   "Connect with industry references",
   "Develop custom ROI projection"]

/-- `RAGAnalyzer._generate_opportunity_brief`.  Raises (returns
`Except.error`) exactly when `_get_intent_label` does, i.e. when
`intent_score` is absent from the record. -/
def generate_opportunity_brief (account : Account)
    (strategy : SalesStrategy) : Except String String := do
  let company_name := pyOptStr account.company_name
  let intent_score := account.intent_score
  let signals_summary :=
    summarize_intent_signals (account.intent_signals.getD [])
  let label ← get_intent_label intent_score
  Except.ok
    ("🎯 **OPPORTUNITY BRIEF: " ++ company_name ++ "**\n\n" ++
     "**📊 Intent Analysis**\n" ++
     "- Intent Score: " ++ pyOptInt intent_score ++ "/100 (" ++ label ++ ")\n" ++
     "- Key Signals: " ++ signals_summary ++ "\n\n" ++
     "**🏢 Company Profile**\n" ++
     "- Industry: " ++ pyOptStr account.industry ++ "\n" ++
     "- Size: " ++ pyOptInt account.employee_count ++ " employees\n" ++
     "- Revenue: " ++ pyOptStr account.revenue ++ "\n\n" ++
     "**🎯 Recommended Approach**\n" ++
     "- Strategy Type: " ++ titleStr (replaceUnderscores strategy.strategy_type) ++ "\n" ++
     "- Primary Focus: " ++ get_primary_focus strategy ++ "\n\n" ++
     "**⚡ Next Actions**\n" ++
     format_next_actions strategy ++ "\n\n" ++
     "**⏰ Urgency Level: " ++
       calculate_urgency (account.intent_signals.getD []) ++ "**\n")

/-- The analysis-result dictionary returned by
`RAGAnalyzer.analyze_account`. -/
structure AnalysisResult where
  account_id : Option String
  company_name : String
  analysis_timestamp : String
  intent_score : Int
  opportunity_brief : String
  recommended_actions : List String
  urgency_level : String
  sales_strategy : SalesStrategy
deriving DecidableEq, Repr

/-- `RAGAnalyzer._generate_fallback_analysis` (`ts` stands for
`datetime.utcnow().isoformat()`). -/
def generate_fallback_analysis (ts : String) (account : Account) :
    AnalysisResult :=
  let company_name := account.company_name.getD "Unknown Company"
  { account_id := account.account_id
    company_name := company_name
    analysis_timestamp := ts
    intent_score := account.intent_score.getD 0
    opportunity_brief :=
      s!"High-intent account {company_name} requires immediate follow-up"
    recommended_actions :=
      ["Contact within 24 hours", "Send discovery meeting invite"]
    urgency_level := "HIGH"
    sales_strategy :=
      { strategy_type := "general_enterprise"
        recommendations := none
        confidence := mkRat 1 2 } }

/-- The `try:` body of `RAGAnalyzer.analyze_account`. -/
def analyzeAccountBody (env : RAGEnv) (ts : String) (account : Account) :
    Except String AnalysisResult := do
  let company_name := account.company_name.getD "Unknown Company"
  let industry := account.industry.getD "Unknown Industry"
  let intent_score := account.intent_score.getD 0
  let intent_signals := account.intent_signals.getD []
  let context := build_context account
  let sales_strategy := get_sales_strategy env context industry
  let opportunity_brief ← generate_opportunity_brief account sales_strategy
  Except.ok
    { account_id := account.account_id
      company_name := company_name
      analysis_timestamp := ts
      intent_score := intent_score
      opportunity_brief := opportunity_brief
      recommended_actions := get_recommended_actions
      urgency_level := calculate_urgency intent_signals
      sales_strategy := sales_strategy }

/-- `RAGAnalyzer.analyze_account`: the `try/except` boundary — any error
of the body is converted into `_generate_fallback_analysis`. -/
def analyze_account (env : RAGEnv) (ts : String) (account : Account) :
    AnalysisResult :=
  match analyzeAccountBody env ts account with
  | Except.ok r => r
  | Except.error _ => generate_fallback_analysis ts account

/-! ## Notifier (`activities/slack_poster.py`) -/

/-- Python truthiness of an optional string (`if settings.arcade_tool_id:`). -/
def pyTruthyStr (x : Option String) : Bool :=
  match x with
  | none => false
  | some s => !s.isEmpty

/-- One element of the `blocks` payload built by
`_format_slack_message` (header, mrkdwn section, field section, or
action buttons with an optional url). -/
inductive SlackBlock where
  | header (text : String)
  | sectionText (text : String)
  | sectionFields (fields : List String)
  | actions (buttons : List (String × Option String))
deriving DecidableEq, Repr

/-- The message dictionary handed to the posting backends. -/
structure SlackMessage where
  channel : String
  text : String
  blocks : List SlackBlock
  unfurl_links : Bool
  unfurl_media : Bool
deriving DecidableEq, Repr

/-- `SlackPoster._format_slack_message`. -/
def format_slack_message (analysis : AnalysisResult) : SlackMessage :=
  let company_name := analysis.company_name
  let intent_score := analysis.intent_score
  { channel := settings.slack_channel
    text := s!"New opportunity: {company_name} (Intent: {intent_score}/100)"
    blocks :=
      [SlackBlock.header s!"🚨 New High-Intent Opportunity: {company_name}",
       SlackBlock.sectionText analysis.opportunity_brief,
       SlackBlock.sectionFields
         [s!"*Intent Score:*\n{intent_score}/100",
          "*Urgency:*\n" ++ analysis.urgency_level],
       SlackBlock.actions
         [("📞 Schedule Call", some "https://calendly.com/sales-team"),
          ("📊 View Full Analysis", some "https://crm.company.com/analysis"),
          ("✉️ Send Follow-up", none)]]
    unfurl_links := false
    unfurl_media := false }

/-- What a posting backend hands back; the caller reads
`result.get('message_id')` and `result.get('timestamp')`. -/
structure PostResult where
  message_id : Option String
  timestamp : Option String
  channel : String
deriving DecidableEq, Repr

/-- `SlackPoster._mock_slack_post`: the log-only simulation, always
succeeding with the fixed placeholder identifiers. -/
def mock_slack_post (message : SlackMessage) : PostResult :=
  { message_id := some "mock_message_id_123"
    timestamp := some "1640995200.123456"
    channel := message.channel }

/-- The external tool-execution response (`result.get('id')`,
`result.get('ts')`). -/
structure ArcadeExecResult where
  id : Option String
  ts : Option String

/-- The notifier's external capability: whether an Arcade client was
initialized, the configured tool id, and the tool-execution call on
(channel, text, blocks), which can fail. -/
structure ArcadeEnv where
  client : Bool
  arcade_tool_id : Option String
  execute : String → String → List SlackBlock → Except String ArcadeExecResult

/-- `SlackPoster._post_via_arcade`: on failure the exception is logged and
RE-RAISED (`raise`), so it surfaces to the caller's handler. -/
def post_via_arcade (env : ArcadeEnv) (message : SlackMessage) :
    Except String PostResult :=
  match env.execute message.channel message.text message.blocks with
  | Except.ok r =>
    Except.ok { message_id := r.id, timestamp := r.ts, channel := message.channel }
  | Except.error e => Except.error e

/-- The notification-outcome dictionary of
`SlackPoster.post_opportunity_brief`; the success shape has no `error`
key and the failure shape has no channel/message_id/timestamp keys, hence
the `Option` fields. -/
structure NotificationOutcome where
  success : Bool
  company_name : String
  channel : Option String
  message_id : Option String
  timestamp : Option String
  error : Option String
deriving DecidableEq, Repr

/-- `SlackPoster.post_opportunity_brief`: format, choose the Arcade path
when `self.client and settings.arcade_tool_id` is truthy and the mock
path otherwise, and catch any raised error into a `success=False`
outcome. -/
def post_opportunity_brief (env : ArcadeEnv) (analysis : AnalysisResult) :
    NotificationOutcome :=
  let company_name := analysis.company_name
  let slack_message := format_slack_message analysis
  let attempt : Except String PostResult :=
    if env.client && pyTruthyStr env.arcade_tool_id then
      post_via_arcade env slack_message
    else
      Except.ok (mock_slack_post slack_message)
  match attempt with
  | Except.ok result =>
    { success := true
      company_name := company_name
      channel := some settings.slack_channel
      message_id := result.message_id
      timestamp := result.timestamp
      error := none }
  | Except.error e =>
    { success := false
      company_name := company_name
      channel := none
      message_id := none
      timestamp := none
      error := some e }

/-! ## Opportunity workflow and poll loop
(`workflows/opportunity_workflow.py`, `main.py`)

The durable engine is abstracted as in §6 of the spec: an activity is an
attempt-indexed function `Nat → Except String α` (attempt `i` is the
`i`-th execution the engine schedules under the step's retry policy), and
`execute_activity` returns the first success, or propagates the final
attempt's error once the policy's attempt budget (3 for both steps) is
exhausted. -/

/-- Retry loop: `fuel` further attempts remain after attempt `i`; the last
attempt's outcome is propagated unchanged. -/
def retryAux (act : Nat → Except String α) : Nat → Nat → Except String α
  | i, 0 => act i
  | i, fuel + 1 =>
    match act i with
    | Except.ok v => Except.ok v
    | Except.error _ => retryAux act (i + 1) fuel

/-- `workflow.execute_activity` with `maximum_attempts = n`. -/
def execute_activity (n : Nat) (act : Nat → Except String α) :
    Except String α :=
  retryAux act 0 (n - 1)

/-- The composite result dictionary of
`OpportunityProcessingWorkflow.run`; the "completed" shape carries both
step outputs and no `error` key, the "failed" shape carries `error` and
neither step output. -/
structure WorkflowResult where
  workflow_id : String
  account_data : Account
  analysis_result : Option AnalysisResult
  slack_result : Option NotificationOutcome
  status : String
  error : Option String
  company_name : String
deriving DecidableEq, Repr

/-- `OpportunityProcessingWorkflow.run`: analyze (3 attempts), then notify
(3 attempts); any unrecovered activity failure is caught by the
workflow's `except` and converted into the `status="failed"` result with
`error=str(e)`. -/
def workflow_run (wid : String)
    (analyzeAct : Nat → Except String AnalysisResult)
    (notifyAct : AnalysisResult → Nat → Except String NotificationOutcome)
    (account : Account) : WorkflowResult :=
  let company_name := account.company_name.getD "Unknown Company"
  match execute_activity 3 analyzeAct with
  | Except.error e =>
    { workflow_id := wid, account_data := account, analysis_result := none
      slack_result := none, status := "failed", error := some e
      company_name := company_name }
  | Except.ok analysis =>
    match execute_activity 3 (notifyAct analysis) with
    | Except.error e =>
      { workflow_id := wid, account_data := account, analysis_result := none
        slack_result := none, status := "failed", error := some e
        company_name := company_name }
    | Except.ok slack =>
      { workflow_id := wid, account_data := account
        analysis_result := some analysis, slack_result := some slack
        status := "completed", error := none, company_name := company_name }

/-- The per-account tail of `GTMAgent.process_high_intent_accounts`: after
awaiting the workflow result, `mark_account_processed` is invoked exactly
when `result.get('status') == 'completed'`; otherwise the failure is
logged and the store is left alone.  Returns the persisted store after
the step. -/
def poll_process_account (runWorkflow : Account → WorkflowResult)
    (store : List Account) (account : Account) : List Account :=
  let result := runWorkflow account
  if result.status = "completed" then
    (mark_account_processed store account.account_id).2
  else
    store

/-! ## Spec-side definitions (for refinement comparison only)

These two definitions follow the SPEC's sentences, not the code; they
exist solely to be compared with the code-side `get_high_intent_accounts`
and `load_knowledge_base_files`. -/

/-- Spec sentence for `filter_high_intent(T)`: "returns exactly the subset
of A with `intent_score >= T and processed == false`, preserving original
order". -/
def spec_filter_high_intent (accounts : List Account) (threshold : Int) :
    List Account :=
  accounts.filter fun account =>
    account.intent_score.getD 0 ≥ threshold && !(account.processed.getD false)

/-- Spec sentence for `load_documents()`: "per-file read failures are
caught individually and skipped rather than aborting the whole load" —
i.e. each failing file alone is dropped and every readable file kept. -/
def spec_load_documents
    (dir : Option (List (String × Except String String))) :
    List (String × String) :=
  match dir with
  | none => []
  | some files =>
    files.filterMap fun p =>
      match p.2 with
      | Except.ok content => some (p.1, content)
      | Except.error _ => none

/-! ## Concrete sample data (used by counterexamples and witnesses) -/

/-- An unprocessed account with `intent_score = 50` and no id. -/
def acct50 : Account := { emptyAccount with intent_score := some 50 }

/-- An unprocessed account with id `a1` and a high score. -/
def acctA : Account :=
  { emptyAccount with
      account_id := some "a1", intent_score := some 92
      processed := some false }

/-- A second account, id `b2`. -/
def acctB : Account :=
  { emptyAccount with account_id := some "b2", intent_score := some 40 }

/-- A `pricing_page_view` signal. -/
def sigPricing : Signal := { type := some "pricing_page_view", user_title := none }

/-- A `demo_request` signal. -/
def sigDemo : Signal := { type := some "demo_request", user_title := none }

/-- An analyzer environment with no query engine (index unavailable). -/
def noEngineEnv : RAGEnv := { queryEngine := none }

/-- An analyzer environment whose query call always fails. -/
def failingQueryEnv : RAGEnv :=
  { queryEngine := some fun _ => Except.error "query backend down" }

/-- A configured Arcade environment whose tool execution always fails. -/
def failingArcadeEnv : ArcadeEnv :=
  { client := true
    arcade_tool_id := some "tool-1"
    execute := fun _ _ _ => Except.error "transport down" }

/-- The unconfigured Arcade environment (no client, no tool id). -/
def mockArcadeEnv : ArcadeEnv :=
  { client := false
    arcade_tool_id := none
    execute := fun _ _ _ => Except.error "unused" }

/-- A concrete analysis result, for notifier/workflow witnesses. -/
def sampleAnalysis : AnalysisResult := generate_fallback_analysis "T0" acctA

/-! ## Helper lemmas about the store's mark loop -/

/-- Any successful `markLoop` run splits the collection at the FIRST
matching record and rewrites only that record's `processed` field. -/
theorem markLoop_eq_some_iff_split (id : Option String) :
    ∀ (A A1 : List Account), markLoop id A = some A1 →
      ∃ p a rest, A = p ++ a :: rest ∧ (∀ b ∈ p, b.account_id ≠ id) ∧
        a.account_id = id ∧
        A1 = p ++ { a with processed := some true } :: rest := by
  intro A
  induction A with
  | nil => intro A1 h; simp [markLoop] at h
  | cons a rest ih =>
    intro A1 h
    have hcons : markLoop id (a :: rest) =
        if a.account_id = id then some ({ a with processed := some true } :: rest)
        else (markLoop id rest).map (a :: ·) := rfl
    by_cases hid : a.account_id = id
    · rw [hcons, if_pos hid] at h
      exact ⟨[], a, rest, by simp, by simp, hid, by
        simpa using (Option.some.inj h).symm⟩
    · rw [hcons, if_neg hid] at h
      obtain ⟨r1, hr1, hA1⟩ := Option.map_eq_some'.mp h
      obtain ⟨p, b, tail, hsplit, hp, hb, hres⟩ := ih r1 hr1
      exact ⟨a :: p, b, tail, by simp [hsplit], by
        intro c hc
        rcases List.mem_cons.mp hc with hc | hc
        · exact hc ▸ hid
        · exact hp c hc, hb, by simp [← hA1, hres]⟩

/-- When no record matches, the `for/else` loop falls through. -/
theorem markLoop_eq_none_of_absent (id : Option String) :
    ∀ (A : List Account), (∀ a ∈ A, a.account_id ≠ id) →
      markLoop id A = none := by
  intro A
  induction A with
  | nil => intro _; rfl
  | cons a rest ih =>
    intro h
    have ha : a.account_id ≠ id := h a (List.mem_cons_self a rest)
    simp [markLoop, if_neg ha, ih fun b hb => h b (List.mem_cons_of_mem a hb)]

/-- When some record matches, the loop rewrites. -/
theorem markLoop_isSome_of_present (id : Option String) :
    ∀ (A : List Account), (∃ a ∈ A, a.account_id = id) →
      (markLoop id A).isSome := by
  intro A
  induction A with
  | nil => rintro ⟨a, ha, _⟩; simp at ha
  | cons a rest ih =>
    rintro ⟨b, hb, hbid⟩
    by_cases hid : a.account_id = id
    · simp [markLoop, hid]
    · rcases List.mem_cons.mp hb with rfl | hb
      · exact absurd hbid hid
      · have := ih ⟨b, hb, hbid⟩
        simp only [markLoop, if_neg hid]
        rcases Option.isSome_iff_exists.mp this with ⟨r, hr⟩
        simp [hr]

/-- A prefix of non-matching records is passed over unchanged. -/
theorem markLoop_append_of_prefix_absent (id : Option String) :
    ∀ (p : List Account), (∀ b ∈ p, b.account_id ≠ id) →
      ∀ (l : List Account),
        markLoop id (p ++ l) = (markLoop id l).map (p ++ ·) := by
  intro p
  induction p with
  | nil =>
    intro _ l
    rw [List.nil_append]
    cases markLoop id l <;> rfl
  | cons b p ih =>
    intro h l
    have hb : b.account_id ≠ id := h b (List.mem_cons_self b p)
    have hrec := ih (fun c hc => h c (List.mem_cons_of_mem b hc)) l
    have hcons : markLoop id (b :: (p ++ l)) =
        if b.account_id = id then
          some ({ b with processed := some true } :: (p ++ l))
        else (markLoop id (p ++ l)).map (b :: ·) := rfl
    rw [List.cons_append, hcons, if_neg hb, hrec]
    cases markLoop id l <;> rfl

/-! ## Claim theorems for the account store -/

/-- C1 (counterexample): the claim quantifies over EVERY threshold `T`,
but `threshold or settings.high_intent_threshold` treats the falsy value
`0` like an omitted argument, so at `T = 0` the code filters with the
configured default `75` instead of `0`: the unprocessed account with
score 50 that the claim's filter keeps is dropped by the code. -/
theorem get_high_intent_accounts_zero_threshold_ce :
    get_high_intent_accounts [acct50] (some 0) ≠
      spec_filter_high_intent [acct50] 0 := by
  decide

/-- C1 (amended): for every NONZERO threshold `T`,
`get_high_intent_accounts` returns exactly the records with
`intent_score.getD 0 ≥ T` whose `processed.getD false` flag is unset, in
store order (an equality with `List.filter` on the untouched input
order); an omitted threshold — and likewise the falsy threshold `0` —
selects the configured default `settings.high_intent_threshold = 75`. -/
theorem get_high_intent_accounts_filter (A : List Account) (T : Int)
    (hT : T ≠ 0) :
    get_high_intent_accounts A (some T) = spec_filter_high_intent A T ∧
    get_high_intent_accounts A none =
      spec_filter_high_intent A settings.high_intent_threshold ∧
    get_high_intent_accounts A (some 0) =
      spec_filter_high_intent A settings.high_intent_threshold := by
  refine ⟨?_, rfl, rfl⟩
  simp only [get_high_intent_accounts, effectiveThreshold, if_neg hT,
    spec_filter_high_intent]

/-- C1 (witness): the amended theorem applied at threshold 40 on a
one-account store. -/
theorem get_high_intent_accounts_filter_witness :
    get_high_intent_accounts [acct50] (some 40) =
      spec_filter_high_intent [acct50] 40 :=
  (get_high_intent_accounts_filter [acct50] 40 (by decide)).1

/-- C7 (counterexample): the claim says a failing file is skipped while
every OTHER readable file is still loaded, but the `try` wraps the whole
loop: with directory listing `[a ↦ read failure, b ↦ "text"]` the code
returns the empty mapping, not the claimed `[("b", "text")]`. -/
theorem load_knowledge_base_files_skip_ce :
    load_knowledge_base_files
        (some [("a", Except.error "boom"), ("b", Except.ok "text")]) ≠
      spec_load_documents
        (some [("a", Except.error "boom"), ("b", Except.ok "text")]) := by
  decide

/-- The loop passes over readable entries, accumulating them. -/
theorem loadLoop_ok_append (l : List (String × Except String String)) :
    ∀ (pre : List (String × String)),
      loadLoop ((pre.map fun p => (p.1, Except.ok p.2)) ++ l) =
        pre ++ loadLoop l := by
  intro pre
  induction pre with
  | nil => simp
  | cons p pre ih => simp [loadLoop, ih]

/-- C7 (amended): an absent directory yields the empty mapping without
failing; when every file is readable, all are loaded in order; but a read
failure on one file — although caught, so the function still returns —
ends the enumeration: the files before the failing one are kept and the
failing file AND every later file are skipped. -/
theorem load_knowledge_base_files_amended
    (pre : List (String × String))
    (post : List (String × Except String String)) (nm msg : String) :
    load_knowledge_base_files none = [] ∧
    load_knowledge_base_files
        (some (pre.map fun p => (p.1, Except.ok p.2))) = pre ∧
    load_knowledge_base_files
        (some ((pre.map fun p => (p.1, Except.ok p.2)) ++
          (nm, Except.error msg) :: post)) = pre := by
  refine ⟨rfl, ?_, ?_⟩
  · have := loadLoop_ok_append [] pre
    simpa [load_knowledge_base_files, loadLoop] using this
  · have := loadLoop_ok_append ((nm, Except.error msg) :: post) pre
    simpa [load_knowledge_base_files, loadLoop] using this

/-- C8: `mark_account_processed` is idempotent.  If some record of the
store carries the requested id, then the first call returns `True`, the
second call on the rewritten store returns `True` again with the store
unchanged (the record is merely re-set to `processed = True`), and the
matched record's `processed` flag is `True` after both calls. -/
theorem mark_account_processed_idempotent (A : List Account) (id : String)
    (h : ∃ a ∈ A, a.account_id = some id) :
    (mark_account_processed A (some id)).1 = true ∧
    mark_account_processed ((mark_account_processed A (some id)).2) (some id)
      = (true, (mark_account_processed A (some id)).2) ∧
    ∃ a ∈ (mark_account_processed A (some id)).2,
      a.account_id = some id ∧ a.processed = some true := by
  obtain ⟨A1, hA1⟩ := Option.isSome_iff_exists.mp
    (markLoop_isSome_of_present (some id) A h)
  obtain ⟨p, a, rest, _, hp, haid, hres⟩ :=
    markLoop_eq_some_iff_split (some id) A A1 hA1
  have hsnd : (mark_account_processed A (some id)).2 = A1 := by
    simp [mark_account_processed, hA1]
  have hfst : (mark_account_processed A (some id)).1 = true := by
    simp [mark_account_processed, hA1]
  have hthird : ∃ a ∈ A1, a.account_id = some id ∧ a.processed = some true := by
    refine ⟨{ a with processed := some true }, ?_, haid, rfl⟩
    simp [hres]
  have hsecond : markLoop (some id) A1 = some A1 := by
    have hstep : markLoop (some id) ({ a with processed := some true } :: rest)
        = some ({ a with processed := some true } :: rest) := by
      simp [markLoop, haid]
    rw [hres, markLoop_append_of_prefix_absent (some id) p hp, hstep]
    rfl
  refine ⟨hfst, ?_, hsnd ▸ hthird⟩
  rw [hsnd]
  simp [mark_account_processed, hsecond]

/-- C8 (witness): a two-account store with id `a1` present. -/
theorem mark_account_processed_idempotent_witness :
    (mark_account_processed [acctA, acctB] (some "a1")).1 = true ∧
    mark_account_processed
        ((mark_account_processed [acctA, acctB] (some "a1")).2) (some "a1")
      = (true, (mark_account_processed [acctA, acctB] (some "a1")).2) ∧
    ∃ a ∈ (mark_account_processed [acctA, acctB] (some "a1")).2,
      a.account_id = some "a1" ∧ a.processed = some true :=
  mark_account_processed_idempotent [acctA, acctB] "a1"
    ⟨acctA, by decide, by decide⟩

/-- C9: when no record of the persisted collection carries the requested
id, `mark_account_processed` returns `False` without failing, and the
persisted collection is exactly the input — the `for/else` returns before
the write-back, so no rewrite happens. -/
theorem mark_account_processed_absent (A : List Account) (id : String)
    (h : ∀ a ∈ A, a.account_id ≠ some id) :
    mark_account_processed A (some id) = (false, A) := by
  simp [mark_account_processed, markLoop_eq_none_of_absent (some id) A h]

/-- C9 (witness): id `zz` is in neither record. -/
theorem mark_account_processed_absent_witness :
    mark_account_processed [acctA, acctB] (some "zz") = (false, [acctA, acctB]) :=
  mark_account_processed_absent [acctA, acctB] "zz" (by decide)

/-- C10 (frame condition): when the id is present, the rewritten
collection differs from the loaded one only at the FIRST record whose
`account_id` matches: the prefix `p` of non-matching records and the
suffix `rest` are kept identical, and the matched record is rewritten by
the record update `{ a with processed := some true }`, which by
construction leaves `account_id`, `intent_score`, `intent_signals`,
`otherFields` and every remaining field of `a` unchanged. -/
theorem mark_account_processed_frame (A : List Account) (id : String)
    (h : ∃ a ∈ A, a.account_id = some id) :
    ∃ p a rest, A = p ++ a :: rest ∧
      (∀ b ∈ p, b.account_id ≠ some id) ∧
      a.account_id = some id ∧
      (mark_account_processed A (some id)).2
        = p ++ { a with processed := some true } :: rest := by
  obtain ⟨A1, hA1⟩ := Option.isSome_iff_exists.mp
    (markLoop_isSome_of_present (some id) A h)
  obtain ⟨p, a, rest, hsplit, hp, haid, hres⟩ :=
    markLoop_eq_some_iff_split (some id) A A1 hA1
  exact ⟨p, a, rest, hsplit, hp, haid, by simp [mark_account_processed, hA1, hres]⟩

/-- C10 (witness): marking `b2` in a two-account store splits at the
prefix `[acctA]`. -/
theorem mark_account_processed_frame_witness :
    ∃ p a rest, ([acctA, acctB] : List Account) = p ++ a :: rest ∧
      (∀ b ∈ p, b.account_id ≠ some "b2") ∧
      a.account_id = some "b2" ∧
      (mark_account_processed [acctA, acctB] (some "b2")).2
        = p ++ { a with processed := some true } :: rest :=
  mark_account_processed_frame [acctA, acctB] "b2" ⟨acctB, by decide, by decide⟩

/-! ## Claim theorems for the analyzer's pure classifiers -/

/-- Unfolding of `calculate_urgency` on a non-empty list. -/
theorem calculate_urgency_cons (s : Signal) (l : List Signal) :
    calculate_urgency (s :: l) =
      if ((s :: l).filter fun x => strContains (x.type.getD "") "demo").length > 0
          || ((s :: l).filter fun x => strContains (x.type.getD "") "pricing").length ≥ 2 then
        "🔴 URGENT (Contact within 24hrs)"
      else if ((s :: l).filter fun x => strContains (x.type.getD "") "pricing").length > 0 then
        "🟡 HIGH (Contact within 48hrs)"
      else
        "🟢 MEDIUM (Contact within 1 week)" := rfl

/-- C4: urgency is a pure function of the signal-type list.  The empty
list yields `"LOW"`; a demo-type signal or at least two pricing-type
signals yield the URGENT label (rendered by the code as
`"🔴 URGENT (Contact within 24hrs)"`); exactly one pricing-type signal
and no demo-type signal yields the HIGH label
(`"🟡 HIGH (Contact within 48hrs)"`); any other non-empty list yields the
MEDIUM label (`"🟢 MEDIUM (Contact within 1 week)"`).  The last three
conjuncts are the claim's concrete instances for `pricing_page_view` and
`demo_request`. -/
theorem calculate_urgency_correct (signals : List Signal) :
    (signals = [] → calculate_urgency signals = "LOW") ∧
    (0 < (signals.filter fun s => strContains (s.type.getD "") "demo").length ∨
        2 ≤ (signals.filter fun s => strContains (s.type.getD "") "pricing").length →
      calculate_urgency signals = "🔴 URGENT (Contact within 24hrs)") ∧
    ((signals.filter fun s => strContains (s.type.getD "") "demo").length = 0 →
      (signals.filter fun s => strContains (s.type.getD "") "pricing").length = 1 →
      calculate_urgency signals = "🟡 HIGH (Contact within 48hrs)") ∧
    (signals ≠ [] →
      (signals.filter fun s => strContains (s.type.getD "") "demo").length = 0 →
      (signals.filter fun s => strContains (s.type.getD "") "pricing").length = 0 →
      calculate_urgency signals = "🟢 MEDIUM (Contact within 1 week)") ∧
    calculate_urgency [sigPricing] = "🟡 HIGH (Contact within 48hrs)" ∧
    calculate_urgency [sigPricing, sigPricing] = "🔴 URGENT (Contact within 24hrs)" ∧
    calculate_urgency [sigDemo] = "🔴 URGENT (Contact within 24hrs)" := by
  refine ⟨fun h => by subst h; rfl, ?_, ?_, ?_, by decide, by decide, by decide⟩
  · intro hcond
    cases signals with
    | nil => simp at hcond
    | cons s l =>
      rw [calculate_urgency_cons, if_pos]
      rcases hcond with h | h <;> simp [h]
  · intro hdemo hpricing
    cases signals with
    | nil => simp at hpricing
    | cons s l =>
      rw [calculate_urgency_cons, if_neg, if_pos] <;> simp [hdemo, hpricing]
  · intro hne hdemo hpricing
    cases signals with
    | nil => exact absurd rfl hne
    | cons s l =>
      rw [calculate_urgency_cons, if_neg, if_neg] <;> simp [hdemo, hpricing]

/-- C4 (witness): the demo-signal conjunct of the theorem applied to the
one-element list `[sigDemo]`. -/
theorem calculate_urgency_correct_witness :
    calculate_urgency [sigDemo] = "🔴 URGENT (Contact within 24hrs)" :=
  (calculate_urgency_correct [sigDemo]).2.1 (Or.inl (by decide))

/-- C5: strategy classification is a pure function of the
(industry, context) pair, with first-match-wins precedence over the
branches in source order — financial/security, then saas/startup, then
enterprise/manufacturing, else the general default — and in particular
industry `"Financial Services"` classifies as `enterprise_security` for
EVERY context, because the first branch already matches on the industry
keyword. -/
theorem determine_strategy_type_correct (industry context : String) :
    (strContains (lowerStr industry) "financial" = true ∨
        strContains (lowerStr context) "security" = true →
      determine_strategy_type industry context = "enterprise_security") ∧
    (strContains (lowerStr industry) "financial" = false →
      strContains (lowerStr context) "security" = false →
      strContains (lowerStr industry) "saas" = true ∨
        strContains (lowerStr context) "startup" = true →
      determine_strategy_type industry context = "saas_growth") ∧
    (strContains (lowerStr industry) "financial" = false →
      strContains (lowerStr context) "security" = false →
      strContains (lowerStr industry) "saas" = false →
      strContains (lowerStr context) "startup" = false →
      strContains (lowerStr context) "enterprise" = true ∨
        strContains (lowerStr industry) "manufacturing" = true →
      determine_strategy_type industry context
        = "enterprise_digital_transformation") ∧
    (strContains (lowerStr industry) "financial" = false →
      strContains (lowerStr context) "security" = false →
      strContains (lowerStr industry) "saas" = false →
      strContains (lowerStr context) "startup" = false →
      strContains (lowerStr context) "enterprise" = false →
      strContains (lowerStr industry) "manufacturing" = false →
      determine_strategy_type industry context = "general_enterprise") ∧
    determine_strategy_type "Financial Services" context
      = "enterprise_security" := by
  refine ⟨?_, ?_, ?_, ?_, ?_⟩
  · intro h
    rcases h with h | h <;> simp [determine_strategy_type, h]
  · intro h1 h2 h3
    rcases h3 with h3 | h3 <;> simp [determine_strategy_type, h1, h2, h3]
  · intro h1 h2 h3 h4 h5
    rcases h5 with h5 | h5 <;> simp [determine_strategy_type, h1, h2, h3, h4, h5]
  · intro h1 h2 h3 h4 h5 h6
    simp [determine_strategy_type, h1, h2, h3, h4, h5, h6]
  · have hfin : strContains (lowerStr "Financial Services") "financial" = true := by
      decide
    simp [determine_strategy_type, hfin]

/-- C5 (witness): the first branch applied at
industry `"Financial Services"`, context `"we are a startup"` — the
financial keyword wins over the later startup keyword. -/
theorem determine_strategy_type_correct_witness :
    determine_strategy_type "Financial Services" "we are a startup"
      = "enterprise_security" :=
  (determine_strategy_type_correct "Financial Services" "we are a startup").1
    (Or.inl (by decide))

/-! ## Claim theorems for the analyzer boundary, the notifier and the
workflow -/

/-- Case analysis of the `try:` body of `analyze_account`: it succeeds
with the documented record exactly when `_generate_opportunity_brief`
does, and propagates that helper's error otherwise. -/
theorem analyzeAccountBody_cases (env : RAGEnv) (ts : String)
    (account : Account) :
    analyzeAccountBody env ts account =
      match generate_opportunity_brief account
          (get_sales_strategy env (build_context account)
            (account.industry.getD "Unknown Industry")) with
      | Except.ok brief =>
        Except.ok
          { account_id := account.account_id
            company_name := account.company_name.getD "Unknown Company"
            analysis_timestamp := ts
            intent_score := account.intent_score.getD 0
            opportunity_brief := brief
            recommended_actions := get_recommended_actions
            urgency_level := calculate_urgency (account.intent_signals.getD [])
            sales_strategy := get_sales_strategy env (build_context account)
              (account.industry.getD "Unknown Industry") }
      | Except.error e => Except.error e := by
  cases hg : generate_opportunity_brief account
      (get_sales_strategy env (build_context account)
        (account.industry.getD "Unknown Industry")) with
  | ok brief => simp [analyzeAccountBody, Bind.bind, Except.bind, hg]
  | error e => simp [analyzeAccountBody, Bind.bind, Except.bind, hg]

/-- C3: `analyze_account` is a total function of the record and the
analyzer's environment — no error escapes its boundary (the `try/except`
is the outermost construct of the embedding).  Whatever happens, the
returned record carries all documented fields with the defaulted values
(`account_id` passed through, `company_name` defaulting to
`"Unknown Company"`, the timestamp, `intent_score` defaulting to `0`);
any failure of the body is converted into the deterministic
`_generate_fallback_analysis` record; and an unavailable index, a failing
query, or the fallback record itself all yield `strategy_type =
"general_enterprise"` with confidence `0.5`. -/
theorem analyze_account_never_raises (env : RAGEnv) (ts : String)
    (account : Account) :
    (analyze_account env ts account).account_id = account.account_id ∧
    (analyze_account env ts account).company_name
      = account.company_name.getD "Unknown Company" ∧
    (analyze_account env ts account).analysis_timestamp = ts ∧
    (analyze_account env ts account).intent_score
      = account.intent_score.getD 0 ∧
    (∀ e, analyzeAccountBody env ts account = Except.error e →
      analyze_account env ts account = generate_fallback_analysis ts account) ∧
    (env.queryEngine = none →
      (analyze_account env ts account).sales_strategy.strategy_type
          = "general_enterprise" ∧
      (analyze_account env ts account).sales_strategy.confidence = mkRat 1 2) ∧
    (∀ q, env.queryEngine = some q →
      ∀ m, q (buildQuery (build_context account)) = Except.error m →
      (analyze_account env ts account).sales_strategy.strategy_type
          = "general_enterprise" ∧
      (analyze_account env ts account).sales_strategy.confidence = mkRat 1 2) ∧
    (generate_fallback_analysis ts account).sales_strategy.strategy_type
      = "general_enterprise" ∧
    (generate_fallback_analysis ts account).sales_strategy.confidence
      = mkRat 1 2 := by
  have hcase := analyzeAccountBody_cases env ts account
  have hfb1 : (generate_fallback_analysis ts account).sales_strategy.strategy_type
      = "general_enterprise" := rfl
  have hfb2 : (generate_fallback_analysis ts account).sales_strategy.confidence
      = mkRat 1 2 := rfl
  have hstrat_none : env.queryEngine = none →
      get_sales_strategy env (build_context account)
          (account.industry.getD "Unknown Industry")
        = get_fallback_strategy (account.industry.getD "Unknown Industry") := by
    intro h; simp [get_sales_strategy, h]
  have hstrat_fail : ∀ q, env.queryEngine = some q →
      ∀ m, q (buildQuery (build_context account)) = Except.error m →
      get_sales_strategy env (build_context account)
          (account.industry.getD "Unknown Industry")
        = get_fallback_strategy (account.industry.getD "Unknown Industry") := by
    intro q hq m hm; simp [get_sales_strategy, hq, hm]
  cases hg : generate_opportunity_brief account
      (get_sales_strategy env (build_context account)
        (account.industry.getD "Unknown Industry")) with
  | ok brief =>
    have hres : analyze_account env ts account =
        { account_id := account.account_id
          company_name := account.company_name.getD "Unknown Company"
          analysis_timestamp := ts
          intent_score := account.intent_score.getD 0
          opportunity_brief := brief
          recommended_actions := get_recommended_actions
          urgency_level := calculate_urgency (account.intent_signals.getD [])
          sales_strategy := get_sales_strategy env (build_context account)
            (account.industry.getD "Unknown Industry") } := by
      rw [analyze_account, hcase, hg]
    refine ⟨by rw [hres], by rw [hres], by rw [hres], by rw [hres],
      ?_, ?_, ?_, hfb1, hfb2⟩
    · intro e he
      rw [hcase, hg] at he
      exact absurd he (by simp)
    · intro h
      rw [hres, hstrat_none h]
      exact ⟨rfl, rfl⟩
    · intro q hq m hm
      rw [hres, hstrat_fail q hq m hm]
      exact ⟨rfl, rfl⟩
  | error e =>
    have hres : analyze_account env ts account
        = generate_fallback_analysis ts account := by
      rw [analyze_account, hcase, hg]
    refine ⟨by rw [hres]; rfl, ?_, by rw [hres]; rfl, ?_, fun _ _ => hres,
      fun _ => by rw [hres]; exact ⟨hfb1, hfb2⟩,
      fun _ _ _ _ => by rw [hres]; exact ⟨hfb1, hfb2⟩, hfb1, hfb2⟩
    · rw [hres]; rfl
    · rw [hres]; rfl

/-- C3 (witness): the degenerate record with every optional field absent,
analyzed with no index available: the body raises (the score comparison
on the absent `intent_score`), the boundary converts it into the
deterministic fallback record. -/
theorem analyze_account_never_raises_witness :
    analyze_account noEngineEnv "T0" emptyAccount
      = generate_fallback_analysis "T0" emptyAccount :=
  (analyze_account_never_raises noEngineEnv "T0" emptyAccount).2.2.2.2.1
    "TypeError: not supported between instances of NoneType and int" rfl

/-- C6: `post_opportunity_brief` never raises (it is total on its
environment and input) and its outcome is as documented: when delivery is
unconfigured (`self.client` falsy or `settings.arcade_tool_id` falsy),
the local simulation runs and the outcome is `success = True` with the
fixed placeholder `message_id "mock_message_id_123"`; when the configured
external call fails, the raised error is caught into a
`success = False` outcome with the error string populated. -/
theorem post_opportunity_brief_outcomes (env : ArcadeEnv)
    (analysis : AnalysisResult) :
    (env.client = false ∨ pyTruthyStr env.arcade_tool_id = false →
      post_opportunity_brief env analysis =
        { success := true
          company_name := analysis.company_name
          channel := some settings.slack_channel
          message_id := some "mock_message_id_123"
          timestamp := some "1640995200.123456"
          error := none }) ∧
    (∀ e, env.client = true → pyTruthyStr env.arcade_tool_id = true →
      env.execute (format_slack_message analysis).channel
          (format_slack_message analysis).text
          (format_slack_message analysis).blocks = Except.error e →
      post_opportunity_brief env analysis =
        { success := false
          company_name := analysis.company_name
          channel := none
          message_id := none
          timestamp := none
          error := some e }) := by
  constructor
  · intro h
    rcases h with h | h <;>
      simp [post_opportunity_brief, h, mock_slack_post]
  · intro e hc ht hex
    simp [post_opportunity_brief, hc, ht, post_via_arcade, hex]

/-- C6 (witness): the failing-transport conjunct at the configured
environment whose execute call errors with `"transport down"`. -/
theorem post_opportunity_brief_outcomes_witness :
    post_opportunity_brief failingArcadeEnv sampleAnalysis =
      { success := false
        company_name := sampleAnalysis.company_name
        channel := none
        message_id := none
        timestamp := none
        error := some "transport down" } :=
  (post_opportunity_brief_outcomes failingArcadeEnv sampleAnalysis).2
    "transport down" rfl rfl rfl

/-- If every attempt of an activity fails with the same error, the retry
loop propagates that error. -/
theorem retryAux_all_fail (act : Nat → Except String α) (msg : String)
    (h : ∀ i, act i = Except.error msg) :
    ∀ fuel i, retryAux act i fuel = Except.error msg := by
  intro fuel
  induction fuel with
  | zero => intro i; exact h i
  | succ k ih => intro i; simp [retryAux, h i, ih]

/-- `execute_activity` under a policy of `n` attempts, all failing. -/
theorem execute_activity_all_fail (n : Nat) (act : Nat → Except String α)
    (msg : String) (h : ∀ i, act i = Except.error msg) :
    execute_activity n act = Except.error msg :=
  retryAux_all_fail act msg h (n - 1) 0

/-- C2: when the analyze step succeeds but the notify step fails on every
retry attempt with error `msg`, the workflow returns the `failed` result
carrying `msg` as its error, and the poll loop — which only calls
`mark_account_processed` on `status == "completed"` — leaves the
persisted store exactly as it was, so every account's `processed` flag
(in particular this one's, which the filter guarantees was falsy) is
unchanged. -/
theorem workflow_notify_failure (wid : String) (store : List Account)
    (account : Account)
    (analyzeAct : Nat → Except String AnalysisResult)
    (notifyAct : AnalysisResult → Nat → Except String NotificationOutcome)
    (analysis : AnalysisResult) (msg : String)
    (hA : execute_activity 3 analyzeAct = Except.ok analysis)
    (hN : ∀ a i, notifyAct a i = Except.error msg) :
    (workflow_run wid analyzeAct notifyAct account).status = "failed" ∧
    (workflow_run wid analyzeAct notifyAct account).error = some msg ∧
    poll_process_account (workflow_run wid analyzeAct notifyAct) store account
      = store := by
  have hw : workflow_run wid analyzeAct notifyAct account =
      { workflow_id := wid
        account_data := account
        analysis_result := none
        slack_result := none
        status := "failed"
        error := some msg
        company_name := account.company_name.getD "Unknown Company" } := by
    have hNres := execute_activity_all_fail 3 (notifyAct analysis) msg (hN analysis)
    simp [workflow_run, hA, hNres]
  refine ⟨by rw [hw], by rw [hw], ?_⟩
  simp [poll_process_account, hw]

/-- C2 (witness): a one-account store, an analyze activity succeeding
immediately, a notify activity failing on every attempt with
`"slack down"`. -/
theorem workflow_notify_failure_witness :
    (workflow_run "w1" (fun _ => Except.ok sampleAnalysis)
        (fun _ _ => Except.error "slack down") acctA).status = "failed" ∧
    (workflow_run "w1" (fun _ => Except.ok sampleAnalysis)
        (fun _ _ => Except.error "slack down") acctA).error
      = some "slack down" ∧
    poll_process_account
        (workflow_run "w1" (fun _ => Except.ok sampleAnalysis)
          (fun _ _ => Except.error "slack down"))
        [acctA] acctA = [acctA] :=
  workflow_notify_failure "w1" [acctA] acctA
    (fun _ => Except.ok sampleAnalysis)
    (fun _ _ => Except.error "slack down")
    sampleAnalysis "slack down" rfl (fun _ _ => rfl)

end GTM
